import Mathlib

/-!
Verification of device-opcua-go.

A shallow embedding of the two source files of the OPC-UA device service:

* `config/configuration.go`: the custom configuration block, its validation
  (`Validate`), the endpoint lookup (`FetchEndpoint`) and the conversion of a raw
  reading into a typed command value (`NewResult`);
* `driver/OPCdriver.go`: the protocol driver (`ProcessCustomConfigChanges`,
  `HandleReadCommands`, `handleReadCommandRequest`, `Stop`, `AddDevice`,
  `UpdateDevice`, `RemoveDevice`).

Go maps with string keys are association lists read with `List.lookup`; a Go
`error` is a value of `GoError` and the nil error is `none`; a run-time panic is
an explicit outcome; everything the code calls in an external library (the cast
package, the OPC-UA client, the SDK constructor of command values, the clock) is
a field of an environment record, so that every theorem holds for every
behaviour of these libraries.
-/

set_option linter.unusedVariables false

namespace DeviceOpcua

/-! ## Go values shared by both packages -/

/-- Go map with string keys, as an association list. The comma-ok index
expression `v, ok := m[k]` is `lookupKey m k`: `some v` when `ok`, `none`
otherwise. A nil map is the empty list. -/
abbrev GoMap (V : Type) := List (String × V)

/-- The index expression `m[k]` in its comma-ok form. -/
def lookupKey {V : Type} (m : GoMap V) (k : String) : Option V :=
  List.lookup k m

/-- Error kinds of `go-mod-core-contracts/v2/errors` (only `KindContractInvalid`
is used by this repository). -/
inductive ErrKind where
  | KindUnknown
  | KindContractInvalid
  | KindServerError
  deriving DecidableEq, Repr

/-- A non-nil Go `error` value.
* `edgeX kind msg` is `errors.NewCommonEdgeX(kind, msg, nil)`;
* `errorf msg` is `fmt.Errorf(...)` with the formatted text `msg`;
* `lib msg` is an error value handed back by an external library. -/
inductive GoError where
  | edgeX (kind : ErrKind) (message : String)
  | errorf (message : String)
  | lib (message : String)
  deriving DecidableEq, Repr

/-- The method `Error()` of an error value: the text `%v` and `%s` print. -/
def GoError.Error : GoError → String
  | .edgeX _ m => m
  | .errorf m => m
  | .lib m => m

/-! ## package config -/

/-- The type `OPCWritable` of `configuration.go`. -/
structure OPCWritable where
  Resources : String
  deriving DecidableEq, Repr

/-- The type `OPCConfig` of `configuration.go`. -/
structure OPCConfig where
  DeviceName : String
  Policy : String
  Mode : String
  CertFile : String
  KeyFile : String
  Writable : OPCWritable
  deriving DecidableEq, Repr

/-- The type `ServiceConfig` of `configuration.go`. -/
structure ServiceConfig where
  OPCCustom : OPCConfig
  deriving DecidableEq, Repr

/-- The package-level table `policies`. -/
def policies : GoMap Int :=
  [("None", 1), ("Basic128Rsa15", 2), ("Basic256", 3), ("Basic256Sha256", 4)]

/-- The package-level table `modes`. -/
def modes : GoMap Int :=
  [("None", 1), ("Sign", 2), ("SignAndEncrypt", 3)]

/-- The method `(*OPCConfig).Validate`; `none` is the nil error. -/
def Validate (oc : OPCConfig) : Option GoError :=
  if oc.DeviceName = "" then
    some (.edgeX .KindContractInvalid "OPCConfig.DeviceName setting can not be blank")
  else
    match lookupKey policies oc.Policy with
    | none =>
      some (.edgeX .KindContractInvalid
        "OPCConfig.Policy configuration setting must be eiher None, Basic128Rsa15, Basic256 or Basic256Sha256")
    | some _ =>
      match lookupKey modes oc.Mode with
      | none =>
        some (.edgeX .KindContractInvalid
          "OPCConfig.Mode configuration setting must be either None, Sign or SignAndEncrypt")
      | some _ => none

/-- The type `models.ProtocolProperties`: property name to value. -/
abbrev ProtocolProperties := GoMap String

/-- The function `FetchEndpoint`. Go returns the pair `(endpoint, nil)` or
`("", err)`; the pair is kept as it is. -/
def FetchEndpoint (protocols : GoMap ProtocolProperties) : String × Option GoError :=
  match lookupKey protocols "opcua" with
  | none =>
    ("", some (.edgeX .KindContractInvalid "Opcua protocol properties is not defined"))
  | some properties =>
    match lookupKey properties "Endpoint" with
    | none =>
      ("", some (.edgeX .KindContractInvalid
        "Endpoint not found in the Opcua protocol properties"))
    | some endpoint => (endpoint, none)

/-- A Go value held in an `interface{}`: a raw reading, a request attribute or
a coerced value. Integers carry their mathematical value and floating-point
numbers their bit pattern (no arithmetic is done on either); `other` stands for a
value of any further dynamic type (a time stamp, a byte string, an array). -/
inductive GoValue where
  | nil
  | bool (b : Bool)
  | string (s : String)
  | uint8 (n : Nat)
  | uint16 (n : Nat)
  | uint32 (n : Nat)
  | uint64 (n : Nat)
  | int8 (i : Int)
  | int16 (i : Int)
  | int32 (i : Int)
  | int64 (i : Int)
  | float32 (bits : Nat)
  | float64 (bits : Nat)
  | other (description : String)
  deriving DecidableEq, Repr

/-- The constant `common.ValueTypeBool` of go-mod-core-contracts. -/
def ValueTypeBool : String := "Bool"
/-- The constant `common.ValueTypeString`. -/
def ValueTypeString : String := "String"
/-- The constant `common.ValueTypeUint8`. -/
def ValueTypeUint8 : String := "Uint8"
/-- The constant `common.ValueTypeUint16`. -/
def ValueTypeUint16 : String := "Uint16"
/-- The constant `common.ValueTypeUint32`. -/
def ValueTypeUint32 : String := "Uint32"
/-- The constant `common.ValueTypeUint64`. -/
def ValueTypeUint64 : String := "Uint64"
/-- The constant `common.ValueTypeInt8`. -/
def ValueTypeInt8 : String := "Int8"
/-- The constant `common.ValueTypeInt16`. -/
def ValueTypeInt16 : String := "Int16"
/-- The constant `common.ValueTypeInt32`. -/
def ValueTypeInt32 : String := "Int32"
/-- The constant `common.ValueTypeInt64`. -/
def ValueTypeInt64 : String := "Int64"
/-- The constant `common.ValueTypeFloat32`. -/
def ValueTypeFloat32 : String := "Float32"
/-- The constant `common.ValueTypeFloat64`. -/
def ValueTypeFloat64 : String := "Float64"

/-- The type `sdkModels.CommandRequest`; its field `Type` is `ValueType` here. -/
structure CommandRequest where
  DeviceResourceName : String
  Attributes : GoMap GoValue
  ValueType : String
  deriving DecidableEq, Repr

/-- The type `sdkModels.CommandValue`; its field `Type` is `ValueType` here. -/
structure CommandValue where
  DeviceResourceName : String
  ValueType : String
  Value : GoValue
  Origin : Int
  deriving DecidableEq, Repr

/-- The external functions `NewResult` calls: the coercions of `spf13/cast` and
the SDK constructor `sdkModels.NewCommandValueWithOrigin`. Each returns a value
or an error of the library, given by its text (`GoError.lib`). -/
structure ConfigLib where
  ToBoolE : GoValue → Except String Bool
  ToStringE : GoValue → Except String String
  ToUint8E : GoValue → Except String Nat
  ToUint16E : GoValue → Except String Nat
  ToUint32E : GoValue → Except String Nat
  ToUint64E : GoValue → Except String Nat
  ToInt8E : GoValue → Except String Int
  ToInt16E : GoValue → Except String Int
  ToInt32E : GoValue → Except String Int
  ToInt64E : GoValue → Except String Int
  ToFloat32E : GoValue → Except String Nat
  ToFloat64E : GoValue → Except String Nat
  NewCommandValueWithOrigin : String → String → GoValue → Int → Except String CommandValue

/-- The error `fmt.Errorf(castError, req.DeviceResourceName, err)` with
`castError = "fail to parse %v reading, %v"`. -/
def castFailure (req : CommandRequest) (err : String) : GoError :=
  .errorf ("fail to parse " ++ req.DeviceResourceName ++ " reading, " ++ (GoError.lib err).Error)

/-- The error of the `default` branch of `NewResult`:
`fmt.Errorf("return result fail, none supported value type: %v", req.Type)`. -/
def unsupportedType (req : CommandRequest) : GoError :=
  .errorf ("return result fail, none supported value type: " ++ req.ValueType)

/-- The last two statements of `NewResult`: the origin is
`time.Now().UnixNano() / int64(time.Millisecond)` (`unixNano` is what the clock
returns, `time.Millisecond` is 1000000 and Go division truncates), then the SDK
constructor is called. -/
def stampResult (lib : ConfigLib) (unixNano : Int) (req : CommandRequest) (val : GoValue) :
    Except GoError CommandValue :=
  match lib.NewCommandValueWithOrigin req.DeviceResourceName req.ValueType val
      (Int.tdiv unixNano 1000000) with
  | .error err => .error (.lib err)
  | .ok cv => .ok cv

/-- The function `NewResult`. The pair `(*CommandValue, error)` it returns is
either `(nil, err)` or what the SDK constructor returns, hence an `Except`. -/
def NewResult (lib : ConfigLib) (unixNano : Int) (req : CommandRequest) (reading : GoValue) :
    Except GoError CommandValue :=
  if req.ValueType = ValueTypeBool then
    match lib.ToBoolE reading with
    | .error err => .error (castFailure req err)
    | .ok val => stampResult lib unixNano req (.bool val)
  else if req.ValueType = ValueTypeString then
    match lib.ToStringE reading with
    | .error err => .error (castFailure req err)
    | .ok val => stampResult lib unixNano req (.string val)
  else if req.ValueType = ValueTypeUint8 then
    match lib.ToUint8E reading with
    | .error err => .error (castFailure req err)
    | .ok val => stampResult lib unixNano req (.uint8 val)
  else if req.ValueType = ValueTypeUint16 then
    match lib.ToUint16E reading with
    | .error err => .error (castFailure req err)
    | .ok val => stampResult lib unixNano req (.uint16 val)
  else if req.ValueType = ValueTypeUint32 then
    match lib.ToUint32E reading with
    | .error err => .error (castFailure req err)
    | .ok val => stampResult lib unixNano req (.uint32 val)
  else if req.ValueType = ValueTypeUint64 then
    match lib.ToUint64E reading with
    | .error err => .error (castFailure req err)
    | .ok val => stampResult lib unixNano req (.uint64 val)
  else if req.ValueType = ValueTypeInt8 then
    match lib.ToInt8E reading with
    | .error err => .error (castFailure req err)
    | .ok val => stampResult lib unixNano req (.int8 val)
  else if req.ValueType = ValueTypeInt16 then
    match lib.ToInt16E reading with
    | .error err => .error (castFailure req err)
    | .ok val => stampResult lib unixNano req (.int16 val)
  else if req.ValueType = ValueTypeInt32 then
    match lib.ToInt32E reading with
    | .error err => .error (castFailure req err)
    | .ok val => stampResult lib unixNano req (.int32 val)
  else if req.ValueType = ValueTypeInt64 then
    match lib.ToInt64E reading with
    | .error err => .error (castFailure req err)
    | .ok val => stampResult lib unixNano req (.int64 val)
  else if req.ValueType = ValueTypeFloat32 then
    match lib.ToFloat32E reading with
    | .error err => .error (castFailure req err)
    | .ok val => stampResult lib unixNano req (.float32 val)
  else if req.ValueType = ValueTypeFloat64 then
    match lib.ToFloat64E reading with
    | .error err => .error (castFailure req err)
    | .ok val => stampResult lib unixNano req (.float64 val)
  else
    .error (unsupportedType req)

/-! ## package driver -/

/-- A run-time panic, with the expression that raises it. -/
inductive Panic where
  | indexOutOfRange (expr : String) (index length : Nat)
  | nilDereference (expr : String)
  | interfaceConversion (expr : String)
  deriving DecidableEq, Repr

/-- The type `*opcua.Client`, identified by the endpoint it was created for
(`opcua.NewClient(endpoint, opcua.SecurityMode(ua.MessageSecurityModeNone))`). -/
structure Client where
  endpoint : String
  deriving DecidableEq, Repr

/-- The type `*ua.NodeID`, as the text it was parsed from or any normal form the
library chooses. -/
structure NodeID where
  text : String
  deriving DecidableEq, Repr

/-- The type `ua.ReadValueID`. -/
structure ReadValueID where
  NodeID : NodeID
  deriving DecidableEq, Repr

/-- The enumeration `ua.TimestampsToReturn`. -/
inductive TimestampsToReturn where
  | Source
  | Server
  | Both
  | Neither
  deriving DecidableEq, Repr

/-- The type `ua.ReadRequest`. -/
structure ReadRequest where
  MaxAge : Nat
  NodesToRead : List ReadValueID
  TimestampsToReturn : TimestampsToReturn
  deriving DecidableEq, Repr

/-- The constant `ua.StatusOK`. -/
def StatusOK : Nat := 0

/-- The type `*ua.DataValue`: the status code, and what `Value.Value()` yields;
`Value = none` is the nil `*ua.Variant`, on which the call dereferences nil. -/
structure DataValue where
  Status : Nat
  Value : Option GoValue
  deriving DecidableEq, Repr

/-- The type `*ua.ReadResponse`. -/
structure ReadResponse where
  Results : List DataValue
  deriving DecidableEq, Repr

/-- Everything outside the repository that the driver calls; an error of a
library is given by its text (`GoError.lib`).
* `lib`: what `NewResult` calls;
* `ParseNodeID`: `ua.ParseNodeID`;
* `Connect c`: `c.Connect(ctx)`, `none` when the connection is established;
* `Read c i request`: the answer to the `i`-th `Read` issued on `c` (counted
  from 0), so a server may answer the same request differently each time;
* `unixNano i`: `time.Now().UnixNano()` when the `i`-th reading is converted;
* `statusText`: how `%v` prints a `ua.StatusCode`. -/
structure Env where
  lib : ConfigLib
  ParseNodeID : String → Except String NodeID
  Connect : Client → Option String
  Read : Client → Nat → ReadRequest → Except String ReadResponse
  unixNano : Nat → Int
  statusText : Nat → String

/-- The four levels of `logger.LoggingClient` the driver uses. -/
inductive LogLevel where
  | Debug
  | Info
  | Warn
  | Error
  deriving DecidableEq, Repr

/-- An argument of a logging call, before formatting. -/
inductive LogArg where
  | str (s : String)
  | bool (b : Bool)
  | err (e : GoError)
  | protocols (p : GoMap ProtocolProperties)
  | attributes (a : GoMap GoValue)
  deriving DecidableEq, Repr

/-- What a call does to the world outside the driver, in order: a line handed to
the logging client, a connection attempt (`ok` when it is established), a `Read`
issued on a connection, and the `Close` of a connection. -/
inductive Event where
  | log (level : LogLevel) (format : String) (args : List LogArg)
  | connect (c : Client) (ok : Bool)
  | read (c : Client) (request : ReadRequest)
  | close (c : Client)
  deriving DecidableEq, Repr

/-- A non-nil `logger.LoggingClient`. -/
structure LoggingClient where
  id : Nat
  deriving DecidableEq, Repr

/-- The type `OPCDriver`. A nil interface, channel or pointer is `none`; the
channels are identified by a number. -/
structure OPCDriver where
  lc : Option LoggingClient
  asyncCh : Option Nat
  deviceCh : Option Nat
  serviceConfig : Option ServiceConfig
  deriving DecidableEq, Repr

/-- The zero value `OPCDriver{}`: the driver before `Initialize` has run. -/
def zeroDriver : OPCDriver :=
  { lc := none, asyncCh := none, deviceCh := none, serviceConfig := none }

/-- The result of running a piece of the driver: what it returns, or the panic
that ends it, and the events it caused. -/
structure Run (α : Type) where
  outcome : Except Panic α
  trace : List Event

/-- The result of a method of the driver: the driver afterwards, what the method
returns or the panic that ends it, and the events it caused. -/
structure Step (α : Type) where
  state : OPCDriver
  outcome : Except Panic α
  trace : List Event

/-- The argument `rawWritableConfig interface{}` of `ProcessCustomConfigChanges`:
a `*config.OPCWritable` (possibly the nil pointer) or a value of another type. -/
inductive RawConfig where
  | opcWritable (p : Option OPCWritable)
  | other (description : String)
  deriving DecidableEq, Repr

/-- The method `ProcessCustomConfigChanges`. -/
def ProcessCustomConfigChanges (s : OPCDriver) (rawWritableConfig : RawConfig) : Step Unit :=
  match rawWritableConfig with
  | .other _ =>
    match s.lc with
    | none => ⟨s, .error (.nilDereference "s.lc"), []⟩
    | some _ =>
      ⟨s, .ok (), [.log .Error
        "unable to process custom config updates: Can not cast raw config to type 'OPCWritable'" []]⟩
  | .opcWritable updated =>
    match s.lc with
    | none => ⟨s, .error (.nilDereference "s.lc"), []⟩
    | some _ =>
      let received := Event.log .Info
        "Received configuration updates for 'OPCCustom.Writable' section" []
      match s.serviceConfig with
      | none => ⟨s, .error (.nilDereference "s.serviceConfig"), [received]⟩
      | some cfg =>
        let previous := cfg.OPCCustom.Writable
        match updated with
        | none => ⟨s, .error (.nilDereference "updated"), [received]⟩
        | some u =>
          let s1 : OPCDriver :=
            { s with serviceConfig := some { cfg with OPCCustom := { cfg.OPCCustom with Writable := u } } }
          if previous = u then
            ⟨s1, .ok (), [received, .log .Info "No changes detected" []]⟩
          else if previous.Resources ≠ u.Resources then
            ⟨s1, .ok (), [received, .log .Info "Resources changed to: %s" [.str u.Resources]]⟩
          else
            ⟨s1, .ok (), [received]⟩

/-- The method `handleReadCommandRequest`, for the request with index `i` of a
batch (`i` reads were issued on `deviceClient` before it). The Go pair
`(*CommandValue, error)` is an `Except`. -/
def handleReadCommandRequest (env : Env) (deviceClient : Client) (i : Nat) (req : CommandRequest) :
    Run (Except GoError CommandValue) :=
  match lookupKey req.Attributes "nodeId" with
  | none => ⟨.ok (.error (.errorf "attribute nodeID does not exist")), []⟩
  | some nodeID =>
    match nodeID with
    | .string text =>
      match env.ParseNodeID text with
      | .error err =>
        ⟨.ok (.error (.errorf
          ("Driver.handleReadCommands: Invalid node id=" ++ text ++ "; " ++ (GoError.lib err).Error))), []⟩
      | .ok id =>
        let request : ReadRequest :=
          { MaxAge := 2000, NodesToRead := [{ NodeID := id }], TimestampsToReturn := .Both }
        match env.Read deviceClient i request with
        | .error err =>
          ⟨.ok (.error (.errorf ("Driver.handleReadCommands: Read failed: " ++ (GoError.lib err).Error))),
            [.read deviceClient request]⟩
        | .ok resp =>
          match resp.Results with
          | [] => ⟨.error (.indexOutOfRange "resp.Results[0]" 0 0), [.read deviceClient request]⟩
          | result0 :: _ =>
            if result0.Status ≠ StatusOK then
              ⟨.ok (.error (.errorf
                ("Driver.handleReadCommands: Status not OK: " ++ env.statusText result0.Status))),
                [.read deviceClient request]⟩
            else
              match result0.Value with
              | none =>
                ⟨.error (.nilDereference "resp.Results[0].Value"), [.read deviceClient request]⟩
              | some reading =>
                ⟨.ok (NewResult env.lib (env.unixNano i) req reading),
                  [.read deviceClient request]⟩
    | _ => ⟨.error (.interfaceConversion "nodeID.(string)"), []⟩

/-- What `HandleReadCommands` returns: the slice `res` (`none` is the nil slice,
an entry `none` a nil pointer) and the error `err` (`none` is nil). -/
abbrev ReadResult := Option (List (Option CommandValue)) × Option GoError

/-- The loop `for i, req := range reqs` of `HandleReadCommands`, from index `i`
on, with `responses` as filled so far. -/
def readLoop (env : Env) (s : OPCDriver) (client : Client) :
    List CommandRequest → Nat → List (Option CommandValue) → Run ReadResult
  | [], _, responses => ⟨.ok (some responses, none), []⟩
  | req :: rest, i, responses =>
    let r := handleReadCommandRequest env client i req
    match r.outcome with
    | .error p => ⟨.error p, r.trace⟩
    | .ok (.error err) =>
      match s.lc with
      | none => ⟨.error (.nilDereference "s.lc"), r.trace⟩
      | some _ =>
        ⟨.ok (some responses, some err),
          r.trace ++ [.log .Error "Driver.HandleReadCommands: Handle read commands failed: %v"
            [.err err]]⟩
    | .ok (.ok res) =>
      let next := readLoop env s client rest (i + 1) (responses.set i (some res))
      ⟨next.outcome, r.trace ++ next.trace⟩

/-- The method `HandleReadCommands`. The arguments of the first logging call
are evaluated before the call, so `reqs[0]` is indexed before `s.lc` is used; the
deferred `client.Close()` runs when the function returns and when it panics. -/
def HandleReadCommands (env : Env) (s : OPCDriver) (deviceName : String)
    (protocols : GoMap ProtocolProperties) (reqs : List CommandRequest) : Step ReadResult :=
  match reqs with
  | [] => ⟨s, .error (.indexOutOfRange "reqs[0]" 0 0), []⟩
  | req0 :: _ =>
    match s.lc with
    | none => ⟨s, .error (.nilDereference "s.lc"), []⟩
    | some _ =>
      let entered := Event.log .Debug
        "OPCDriver.HandleReadCommands: protocols: %v resource: %v attributes: %v"
        [.protocols protocols, .str req0.DeviceResourceName, .attributes req0.Attributes]
      match FetchEndpoint protocols with
      | (_, some err) => ⟨s, .ok (none, some err), [entered]⟩
      | (endpoint, none) =>
        let client : Client := { endpoint := endpoint }
        match env.Connect client with
        | some err =>
          ⟨s, .ok (none, some (.lib err)),
            [entered, .connect client false,
              .log .Warn "Driver.HandleReadCommands: Failed to connect OPCUA client, %s"
                [.err (.lib err)]]⟩
        | none =>
          let body := readLoop env s client reqs 0 (List.replicate reqs.length none)
          ⟨s, body.outcome, [entered, .connect client true] ++ body.trace ++ [.close client]⟩

/-- The method `Stop`. -/
def Stop (s : OPCDriver) (force : Bool) : Step (Option GoError) :=
  match s.lc with
  | some _ => ⟨s, .ok none, [.log .Debug "SimpleDriver.Stop called: force=%v" [.bool force]]⟩
  | none => ⟨s, .ok none, []⟩

/-- The type `models.AdminState`. -/
abbrev AdminState := String

/-- The method `AddDevice`. -/
def AddDevice (s : OPCDriver) (deviceName : String) (protocols : GoMap ProtocolProperties)
    (adminState : AdminState) : Step (Option GoError) :=
  match s.lc with
  | none => ⟨s, .error (.nilDereference "s.lc"), []⟩
  | some _ => ⟨s, .ok none, [.log .Debug "a new Device is added: %s" [.str deviceName]]⟩

/-- The method `UpdateDevice`. -/
def UpdateDevice (s : OPCDriver) (deviceName : String) (protocols : GoMap ProtocolProperties)
    (adminState : AdminState) : Step (Option GoError) :=
  match s.lc with
  | none => ⟨s, .error (.nilDereference "s.lc"), []⟩
  | some _ => ⟨s, .ok none, [.log .Debug "Device %s is updated" [.str deviceName]]⟩

/-- The method `RemoveDevice`. -/
def RemoveDevice (s : OPCDriver) (deviceName : String) (protocols : GoMap ProtocolProperties) :
    Step (Option GoError) :=
  match s.lc with
  | none => ⟨s, .error (.nilDereference "s.lc"), []⟩
  | some _ => ⟨s, .ok none, [.log .Debug "Device %s is removed" [.str deviceName]]⟩

/-! ## Reading a trace -/

/-- The events of handling the requests of a list one after the other, the first
of them with index `i`. -/
def batchTrace (env : Env) (client : Client) : Nat → List CommandRequest → List Event
  | _, [] => []
  | i, req :: rest =>
    (handleReadCommandRequest env client i req).trace ++ batchTrace env client (i + 1) rest

/-- Whether an event is a `Read` issued on a connection. -/
def Event.isRead : Event → Bool
  | .read _ _ => true
  | _ => false

/-- The connection state after a trace, as the list of the connections that are
open: an established connection is added, a closed one is removed, and no other
event changes the state. -/
def openConnections : List Event → List Client → List Client
  | [], opened => opened
  | .connect c true :: rest, opened => openConnections rest (c :: opened)
  | .close c :: rest, opened => openConnections rest (opened.erase c)
  | _ :: rest, opened => openConnections rest opened

/-! ## A concrete environment, to evaluate the driver on examples -/

/-- Coercions that accept a reading of exactly the requested type, and a
constructor that always succeeds. -/
def sampleLib : ConfigLib where
  ToBoolE := fun v => match v with
    | .bool b => .ok b
    | _ => .error "unable to cast to bool"
  ToStringE := fun v => match v with
    | .string t => .ok t
    | _ => .error "unable to cast to string"
  ToUint8E := fun v => match v with
    | .uint8 n => .ok n
    | _ => .error "unable to cast to uint8"
  ToUint16E := fun v => match v with
    | .uint16 n => .ok n
    | _ => .error "unable to cast to uint16"
  ToUint32E := fun v => match v with
    | .uint32 n => .ok n
    | _ => .error "unable to cast to uint32"
  ToUint64E := fun v => match v with
    | .uint64 n => .ok n
    | _ => .error "unable to cast to uint64"
  ToInt8E := fun v => match v with
    | .int8 n => .ok n
    | _ => .error "unable to cast to int8"
  ToInt16E := fun v => match v with
    | .int16 n => .ok n
    | _ => .error "unable to cast to int16"
  ToInt32E := fun v => match v with
    | .int32 n => .ok n
    | _ => .error "unable to cast to int32"
  ToInt64E := fun v => match v with
    | .int64 n => .ok n
    | _ => .error "unable to cast to int64"
  ToFloat32E := fun v => match v with
    | .float32 n => .ok n
    | _ => .error "unable to cast to float32"
  ToFloat64E := fun v => match v with
    | .float64 n => .ok n
    | _ => .error "unable to cast to float64"
  NewCommandValueWithOrigin := fun name valueType value origin =>
    .ok { DeviceResourceName := name, ValueType := valueType, Value := value, Origin := origin }

/-- A server that accepts every connection and answers every read with status
OK and the value `int32 21`, at a fixed time. -/
def sampleEnv : Env where
  lib := sampleLib
  ParseNodeID := fun text => .ok { text := text }
  Connect := fun _ => none
  Read := fun _ _ _ => .ok { Results := [{ Status := 0, Value := some (.int32 21) }] }
  unixNano := fun _ => 1700000000123456789
  statusText := fun _ => "Bad"

/-- An initialized driver. -/
def sampleDriver : OPCDriver :=
  { lc := some { id := 1 }, asyncCh := some 1, deviceCh := some 2,
    serviceConfig := some { OPCCustom :=
      { DeviceName := "plc", Policy := "None", Mode := "None", CertFile := "", KeyFile := "",
        Writable := { Resources := "a" } } } }

/-- Protocol properties with an endpoint. -/
def sampleProtocols : GoMap ProtocolProperties :=
  [("opcua", [("Endpoint", "opc.tcp://host:4840")])]

/-- A well-formed request. -/
def goodRequest : CommandRequest :=
  { DeviceResourceName := "speed", Attributes := [("nodeId", .string "ns=2;s=speed")],
    ValueType := "Int32" }

/-- A request without a "nodeId" attribute. -/
def noNodeIdRequest : CommandRequest :=
  { DeviceResourceName := "level", Attributes := [], ValueType := "Int32" }

/-- A request whose "nodeId" attribute is a number. -/
def numericNodeIdRequest : CommandRequest :=
  { DeviceResourceName := "level", Attributes := [("nodeId", .int32 42)], ValueType := "Int32" }

/-- The value the sample server yields for `goodRequest`. -/
def goodValue : CommandValue :=
  { DeviceResourceName := "speed", ValueType := "Int32", Value := .int32 21,
    Origin := 1700000000123 }

/-! ## Lemmas on map lookup and on error texts -/

theorem lookupKey_nil {V : Type} (p : String) : lookupKey ([] : GoMap V) p = none := rfl

theorem lookupKey_cons {V : Type} (k : String) (v : V) (m : GoMap V) (p : String) :
    lookupKey ((k, v) :: m) p = if p = k then some v else lookupKey m p := by
  unfold lookupKey
  by_cases h : p = k
  · simp [List.lookup, h]
  · have hb : (p == k) = false := by simpa using h
    simp [List.lookup, h, hb]

theorem lookupKey_policies_none (p : String) :
    lookupKey policies p = none ↔
      p ∉ ["None", "Basic128Rsa15", "Basic256", "Basic256Sha256"] := by
  unfold policies
  simp only [lookupKey_cons, lookupKey_nil]
  by_cases h1 : p = "None" <;> by_cases h2 : p = "Basic128Rsa15" <;>
    by_cases h3 : p = "Basic256" <;> by_cases h4 : p = "Basic256Sha256" <;>
    simp [h1, h2, h3, h4]

theorem lookupKey_modes_none (p : String) :
    lookupKey modes p = none ↔ p ∉ ["None", "Sign", "SignAndEncrypt"] := by
  unfold modes
  simp only [lookupKey_cons, lookupKey_nil]
  by_cases h1 : p = "None" <;> by_cases h2 : p = "Sign" <;>
    by_cases h3 : p = "SignAndEncrypt" <;> simp [h1, h2, h3]

/-- The text of a coercion failure starts with an `f`, the text of the
unsupported-type error with an `r`: the two are never the same error. -/
theorem castFailure_ne_unsupportedType (req req2 : CommandRequest) (err : String) :
    castFailure req err ≠ unsupportedType req2 := by
  unfold castFailure unsupportedType
  intro h
  have h2 := congrArg String.data (GoError.errorf.inj h)
  simp only [String.data_append, List.cons_append] at h2
  have := (List.cons.inj h2).1
  exact absurd this (by decide)

theorem stampResult_ne_unsupportedType (lib : ConfigLib) (unixNano : Int)
    (req req2 : CommandRequest) (val : GoValue) :
    stampResult lib unixNano req val ≠ .error (unsupportedType req2) := by
  unfold stampResult unsupportedType
  cases lib.NewCommandValueWithOrigin req.DeviceResourceName req.ValueType val
      (Int.tdiv unixNano 1000000) <;> simp

/-! ## Validate -/

/-- Claim C1: `Validate` returns nil exactly when `DeviceName` is not empty, `Policy`
is one of None, Basic128Rsa15, Basic256, Basic256Sha256 and `Mode` is one of None,
Sign, SignAndEncrypt; replacing `CertFile`, `KeyFile` and `Writable` by any other
values never changes what it returns. -/
theorem Validate_nil_iff (oc : OPCConfig) :
    (Validate oc = none ↔
      oc.DeviceName ≠ "" ∧
      oc.Policy ∈ ["None", "Basic128Rsa15", "Basic256", "Basic256Sha256"] ∧
      oc.Mode ∈ ["None", "Sign", "SignAndEncrypt"]) ∧
    (∀ (certFile keyFile : String) (writable : OPCWritable),
      Validate { oc with CertFile := certFile, KeyFile := keyFile, Writable := writable }
        = Validate oc) := by
  refine ⟨?_, fun _ _ _ => rfl⟩
  unfold Validate
  by_cases hd : oc.DeviceName = ""
  · simp [hd]
  · by_cases hp : oc.Policy ∈ ["None", "Basic128Rsa15", "Basic256", "Basic256Sha256"]
    · have hp2 : lookupKey policies oc.Policy ≠ none := fun h =>
        (lookupKey_policies_none _).1 h hp
      obtain ⟨pv, hpv⟩ := Option.ne_none_iff_exists'.1 hp2
      by_cases hm : oc.Mode ∈ ["None", "Sign", "SignAndEncrypt"]
      · have hm2 : lookupKey modes oc.Mode ≠ none := fun h =>
          (lookupKey_modes_none _).1 h hm
        obtain ⟨mv, hmv⟩ := Option.ne_none_iff_exists'.1 hm2
        simp only [hd, hpv, hmv, if_false]
        simp [hd, hp, hm]
      · have hm2 := (lookupKey_modes_none _).2 hm
        simp only [hd, hpv, hm2, if_false]
        simp [hm]
    · have hp2 := (lookupKey_policies_none _).2 hp
      simp only [hd, hp2, if_false]
      simp [hp]

/-- Claim C8: when `Validate` fails the error is of kind contract-invalid and is
the one of the first failing check: the DeviceName error when `DeviceName` is empty,
whatever `Policy` and `Mode` are; otherwise the Policy error (its text lists None,
Basic128Rsa15, Basic256, Basic256Sha256) when `Policy` is outside its table, whatever
`Mode` is; otherwise the Mode error (its text lists None, Sign, SignAndEncrypt) when
`Mode` is outside its table; and nil otherwise. -/
theorem Validate_first_failing_check (oc : OPCConfig) :
    Validate oc =
      if oc.DeviceName = "" then
        some (GoError.edgeX ErrKind.KindContractInvalid
          "OPCConfig.DeviceName setting can not be blank")
      else if oc.Policy ∉ ["None", "Basic128Rsa15", "Basic256", "Basic256Sha256"] then
        some (GoError.edgeX ErrKind.KindContractInvalid
          "OPCConfig.Policy configuration setting must be eiher None, Basic128Rsa15, Basic256 or Basic256Sha256")
      else if oc.Mode ∉ ["None", "Sign", "SignAndEncrypt"] then
        some (GoError.edgeX ErrKind.KindContractInvalid
          "OPCConfig.Mode configuration setting must be either None, Sign or SignAndEncrypt")
      else none := by
  unfold Validate
  by_cases hd : oc.DeviceName = ""
  · simp [hd]
  · by_cases hp : oc.Policy ∈ ["None", "Basic128Rsa15", "Basic256", "Basic256Sha256"]
    · have hp2 : lookupKey policies oc.Policy ≠ none := fun h =>
        (lookupKey_policies_none _).1 h hp
      obtain ⟨pv, hpv⟩ := Option.ne_none_iff_exists'.1 hp2
      by_cases hm : oc.Mode ∈ ["None", "Sign", "SignAndEncrypt"]
      · have hm2 : lookupKey modes oc.Mode ≠ none := fun h =>
          (lookupKey_modes_none _).1 h hm
        obtain ⟨mv, hmv⟩ := Option.ne_none_iff_exists'.1 hm2
        simp only [hd, hpv, hmv, if_false]
        rw [if_neg (not_not.2 hp), if_neg (not_not.2 hm)]
      · have hm2 := (lookupKey_modes_none _).2 hm
        simp only [hd, hpv, hm2, if_false]
        rw [if_neg (not_not.2 hp), if_pos hm]
    · have hp2 := (lookupKey_policies_none _).2 hp
      simp only [hd, hp2, if_false]
      rw [if_pos hp]

/-! ## FetchEndpoint -/

/-- Claim C2: `FetchEndpoint` returns `(v, nil)` exactly when the map has an "opcua"
entry whose property map has an "Endpoint" key with value `v`; in every other case,
that is when either key is absent, it returns the empty string with a
contract-invalid error. On the three maps of the specification it returns the
endpoint, and fails with contract-invalid twice. -/
theorem FetchEndpoint_spec (protocols : GoMap ProtocolProperties) :
    (∀ v : String, FetchEndpoint protocols = (v, none) ↔
      ∃ properties, lookupKey protocols "opcua" = some properties ∧
        lookupKey properties "Endpoint" = some v) ∧
    ((∃ properties v, lookupKey protocols "opcua" = some properties ∧
        lookupKey properties "Endpoint" = some v ∧ FetchEndpoint protocols = (v, none)) ∨
     ((lookupKey protocols "opcua" = none ∨
        ∃ properties, lookupKey protocols "opcua" = some properties ∧
          lookupKey properties "Endpoint" = none) ∧
       ∃ message, FetchEndpoint protocols
         = ("", some (GoError.edgeX ErrKind.KindContractInvalid message)))) ∧
    FetchEndpoint [("opcua", [("Endpoint", "opc.tcp://host:4840")])]
      = ("opc.tcp://host:4840", none) ∧
    FetchEndpoint []
      = ("", some (GoError.edgeX ErrKind.KindContractInvalid
          "Opcua protocol properties is not defined")) ∧
    FetchEndpoint [("opcua", [])]
      = ("", some (GoError.edgeX ErrKind.KindContractInvalid
          "Endpoint not found in the Opcua protocol properties")) := by
  refine ⟨?_, ?_, by decide, by decide, by decide⟩
  · intro v
    cases h1 : lookupKey protocols "opcua" with
    | none => simp [FetchEndpoint, h1]
    | some properties =>
      cases h2 : lookupKey properties "Endpoint" with
      | none => simp [FetchEndpoint, h1, h2]
      | some e => simp [FetchEndpoint, h1, h2]
  · cases h1 : lookupKey protocols "opcua" with
    | none =>
      exact Or.inr ⟨Or.inl rfl, "Opcua protocol properties is not defined",
        by simp [FetchEndpoint, h1]⟩
    | some properties =>
      cases h2 : lookupKey properties "Endpoint" with
      | none =>
        exact Or.inr ⟨Or.inr ⟨properties, rfl, h2⟩,
          "Endpoint not found in the Opcua protocol properties", by simp [FetchEndpoint, h1, h2]⟩
      | some e => exact Or.inl ⟨properties, e, rfl, h2, by simp [FetchEndpoint, h1, h2]⟩

/-! ## NewResult -/

/-- Claim C4: `NewResult` fails with the unsupported-type error ("none supported
value type") exactly when the requested value type is outside Bool, String, Int8,
Int16, Int32, Int64, Uint8, Uint16, Uint32, Uint64, Float32, Float64. For a type
outside the set this is the result whatever the coercions, the constructor, the
clock and the reading are (nothing is coerced, no value is returned); for a type
inside the set this error is never the result. -/
theorem NewResult_unsupported_iff (lib : ConfigLib) (unixNano : Int) (req : CommandRequest)
    (reading : GoValue) :
    (NewResult lib unixNano req reading
        = Except.error (GoError.errorf
            ("return result fail, none supported value type: " ++ req.ValueType)) ↔
      req.ValueType ∉ [ValueTypeBool, ValueTypeString, ValueTypeInt8, ValueTypeInt16,
        ValueTypeInt32, ValueTypeInt64, ValueTypeUint8, ValueTypeUint16, ValueTypeUint32,
        ValueTypeUint64, ValueTypeFloat32, ValueTypeFloat64]) ∧
    (req.ValueType ∉ [ValueTypeBool, ValueTypeString, ValueTypeInt8, ValueTypeInt16,
        ValueTypeInt32, ValueTypeInt64, ValueTypeUint8, ValueTypeUint16, ValueTypeUint32,
        ValueTypeUint64, ValueTypeFloat32, ValueTypeFloat64] →
      ∀ (lib2 : ConfigLib) (unixNano2 : Int) (reading2 : GoValue),
        NewResult lib2 unixNano2 req reading2
          = Except.error (GoError.errorf
              ("return result fail, none supported value type: " ++ req.ValueType))) := by
  have key : ∀ (lib2 : ConfigLib) (unixNano2 : Int) (reading2 : GoValue),
      (NewResult lib2 unixNano2 req reading2 = Except.error (unsupportedType req) ↔
        req.ValueType ∉ [ValueTypeBool, ValueTypeString, ValueTypeInt8, ValueTypeInt16,
        ValueTypeInt32, ValueTypeInt64, ValueTypeUint8, ValueTypeUint16, ValueTypeUint32,
        ValueTypeUint64, ValueTypeFloat32, ValueTypeFloat64]) := by
    intro lib2 unixNano2 reading2
    have hc : ∀ err, (Except.error (castFailure req err) : Except GoError CommandValue)
        ≠ Except.error (unsupportedType req) := fun err h =>
      castFailure_ne_unsupportedType req req err (Except.error.inj h)
    have hs := fun val => stampResult_ne_unsupportedType lib2 unixNano2 req req val
    unfold NewResult
    simp only [ValueTypeBool, ValueTypeString, ValueTypeUint8, ValueTypeUint16, ValueTypeUint32,
      ValueTypeUint64, ValueTypeInt8, ValueTypeInt16, ValueTypeInt32, ValueTypeInt64,
      ValueTypeFloat32, ValueTypeFloat64]
    by_cases h1 : req.ValueType = "Bool"
    · rw [if_pos h1]
      cases lib2.ToBoolE reading2 <;> simp only [hc, hs, false_iff, not_not] <;> simp [h1]
    rw [if_neg h1]
    by_cases h2 : req.ValueType = "String"
    · rw [if_pos h2]
      cases lib2.ToStringE reading2 <;> simp only [hc, hs, false_iff, not_not] <;> simp [h2]
    rw [if_neg h2]
    by_cases h3 : req.ValueType = "Uint8"
    · rw [if_pos h3]
      cases lib2.ToUint8E reading2 <;> simp only [hc, hs, false_iff, not_not] <;> simp [h3]
    rw [if_neg h3]
    by_cases h4 : req.ValueType = "Uint16"
    · rw [if_pos h4]
      cases lib2.ToUint16E reading2 <;> simp only [hc, hs, false_iff, not_not] <;> simp [h4]
    rw [if_neg h4]
    by_cases h5 : req.ValueType = "Uint32"
    · rw [if_pos h5]
      cases lib2.ToUint32E reading2 <;> simp only [hc, hs, false_iff, not_not] <;> simp [h5]
    rw [if_neg h5]
    by_cases h6 : req.ValueType = "Uint64"
    · rw [if_pos h6]
      cases lib2.ToUint64E reading2 <;> simp only [hc, hs, false_iff, not_not] <;> simp [h6]
    rw [if_neg h6]
    by_cases h7 : req.ValueType = "Int8"
    · rw [if_pos h7]
      cases lib2.ToInt8E reading2 <;> simp only [hc, hs, false_iff, not_not] <;> simp [h7]
    rw [if_neg h7]
    by_cases h8 : req.ValueType = "Int16"
    · rw [if_pos h8]
      cases lib2.ToInt16E reading2 <;> simp only [hc, hs, false_iff, not_not] <;> simp [h8]
    rw [if_neg h8]
    by_cases h9 : req.ValueType = "Int32"
    · rw [if_pos h9]
      cases lib2.ToInt32E reading2 <;> simp only [hc, hs, false_iff, not_not] <;> simp [h9]
    rw [if_neg h9]
    by_cases h10 : req.ValueType = "Int64"
    · rw [if_pos h10]
      cases lib2.ToInt64E reading2 <;> simp only [hc, hs, false_iff, not_not] <;> simp [h10]
    rw [if_neg h10]
    by_cases h11 : req.ValueType = "Float32"
    · rw [if_pos h11]
      cases lib2.ToFloat32E reading2 <;> simp only [hc, hs, false_iff, not_not] <;> simp [h11]
    rw [if_neg h11]
    by_cases h12 : req.ValueType = "Float64"
    · rw [if_pos h12]
      cases lib2.ToFloat64E reading2 <;> simp only [hc, hs, false_iff, not_not] <;> simp [h12]
    rw [if_neg h12]
    simp [h1, h2, h3, h4, h5, h6, h7, h8, h9, h10, h11, h12]
  exact ⟨key lib unixNano reading, fun h lib2 unixNano2 reading2 =>
    (key lib2 unixNano2 reading2).2 h⟩

/-! ## Lemmas on the read loop -/

/-- What one request can do: return an error or panic on the type assertion
before any read, or issue exactly one read and then return or panic on the
response. -/
theorem handleReadCommandRequest_cases (env : Env) (c : Client) (i : Nat) (req : CommandRequest) :
    ((handleReadCommandRequest env c i req).trace = [] ∧
      ((∃ err, (handleReadCommandRequest env c i req).outcome = Except.ok (Except.error err)) ∨
        (handleReadCommandRequest env c i req).outcome
          = Except.error (Panic.interfaceConversion "nodeID.(string)"))) ∨
    ((∃ request, (handleReadCommandRequest env c i req).trace = [Event.read c request]) ∧
      ((∃ x, (handleReadCommandRequest env c i req).outcome = Except.ok x) ∨
        (handleReadCommandRequest env c i req).outcome
          = Except.error (Panic.indexOutOfRange "resp.Results[0]" 0 0) ∨
        (handleReadCommandRequest env c i req).outcome
          = Except.error (Panic.nilDereference "resp.Results[0].Value"))) := by
  cases h1 : lookupKey req.Attributes "nodeId" with
  | none => simp [handleReadCommandRequest, h1]
  | some nodeID =>
    cases nodeID with
    | string text =>
      cases h2 : env.ParseNodeID text with
      | error err => simp [handleReadCommandRequest, h1, h2]
      | ok id =>
        cases h3 : env.Read c i
            { MaxAge := 2000, NodesToRead := [{ NodeID := id }], TimestampsToReturn := .Both } with
        | error err => simp [handleReadCommandRequest, h1, h2, h3]
        | ok resp =>
          cases h4 : resp.Results with
          | nil => simp [handleReadCommandRequest, h1, h2, h3, h4]
          | cons result0 tail =>
            by_cases h5 : result0.Status = StatusOK
            · cases h6 : result0.Value with
              | none => simp [handleReadCommandRequest, h1, h2, h3, h4, h5, h6]
              | some reading => simp [handleReadCommandRequest, h1, h2, h3, h4, h5, h6]
            · simp [handleReadCommandRequest, h1, h2, h3, h4, h5]
    | _ => simp [handleReadCommandRequest, h1]

/-- One request neither connects nor closes, and issues at most one read. -/
theorem handleReadCommandRequest_trace (env : Env) (c : Client) (i : Nat) (req : CommandRequest) :
    (∀ ev ∈ (handleReadCommandRequest env c i req).trace, ∃ request, ev = Event.read c request) ∧
    ((handleReadCommandRequest env c i req).trace.countP Event.isRead ≤ 1) := by
  rcases handleReadCommandRequest_cases env c i req with ⟨ht, _⟩ | ⟨⟨request, ht⟩, _⟩
  · rw [ht]; simp
  · rw [ht]
    refine ⟨?_, ?_⟩
    · intro ev hev
      exact ⟨request, by simpa using hev⟩
    · simp [List.countP_cons, Event.isRead]

/-- A panic of one request is never the one of `reqs[0]`. -/
theorem handleReadCommandRequest_panic (env : Env) (c : Client) (i : Nat) (req : CommandRequest)
    (p : Panic) (h : (handleReadCommandRequest env c i req).outcome = Except.error p) :
    ∀ index length, p ≠ Panic.indexOutOfRange "reqs[0]" index length := by
  intro index length hp
  subst hp
  rcases handleReadCommandRequest_cases env c i req with ⟨_, ⟨err, h2⟩ | h2⟩ | ⟨_, ⟨x, h2⟩ | h2 | h2⟩
  all_goals rw [h2] at h
  all_goals simp at h

/-- The events of the loop are reads and log lines. -/
theorem readLoop_trace (env : Env) (s : OPCDriver) (c : Client) (reqs : List CommandRequest) :
    ∀ (i : Nat) (responses : List (Option CommandValue)),
      ∀ ev ∈ (readLoop env s c reqs i responses).trace,
        (∃ request, ev = Event.read c request) ∨ ∃ level format args, ev = Event.log level format args := by
  induction reqs with
  | nil => intro i responses ev hev; simp [readLoop] at hev
  | cons req rest ih =>
    intro i responses ev hev
    have ht := (handleReadCommandRequest_trace env c i req).1
    cases h : (handleReadCommandRequest env c i req).outcome with
    | error p =>
      simp only [readLoop, h] at hev
      exact Or.inl (ht ev hev)
    | ok x =>
      cases x with
      | error err =>
        cases hl : s.lc with
        | none =>
          simp only [readLoop, h, hl] at hev
          exact Or.inl (ht ev hev)
        | some l =>
          simp only [readLoop, h, hl, List.mem_append, List.mem_singleton] at hev
          rcases hev with hev | hev
          · exact Or.inl (ht ev hev)
          · exact Or.inr ⟨_, _, _, hev⟩
      | ok res =>
        simp only [readLoop, h, List.mem_append] at hev
        rcases hev with hev | hev
        · exact Or.inl (ht ev hev)
        · exact ih _ _ ev hev

/-- A panic of the loop is never the one of `reqs[0]`. -/
theorem readLoop_panic (env : Env) (s : OPCDriver) (c : Client) (reqs : List CommandRequest) :
    ∀ (i : Nat) (responses : List (Option CommandValue)) (p : Panic),
      (readLoop env s c reqs i responses).outcome = Except.error p →
        ∀ index length, p ≠ Panic.indexOutOfRange "reqs[0]" index length := by
  induction reqs with
  | nil => intro i responses p h; simp [readLoop] at h
  | cons req rest ih =>
    intro i responses p hp
    cases h : (handleReadCommandRequest env c i req).outcome with
    | error q =>
      simp only [readLoop, h] at hp
      have := handleReadCommandRequest_panic env c i req q h
      cases hp
      exact this
    | ok x =>
      cases x with
      | error err =>
        cases hl : s.lc with
        | none =>
          simp only [readLoop, h, hl] at hp
          cases hp
          intro index length hne
          cases hne
        | some l =>
          simp only [readLoop, h, hl] at hp
          cases hp
      | ok res =>
        simp only [readLoop, h] at hp
        exact ih _ _ p hp

/-- Events that are neither an established connection nor a close leave the
connection state as it is. -/
theorem openConnections_append_inert (t rest : List Event) (opened : List Client)
    (h : ∀ ev ∈ t, (∃ c request, ev = Event.read c request) ∨
      ∃ level format args, ev = Event.log level format args) :
    openConnections (t ++ rest) opened = openConnections rest opened := by
  induction t with
  | nil => rfl
  | cons ev t ih =>
    have ih2 := ih (fun e he => h e (List.mem_cons_of_mem _ he))
    rcases h ev (List.mem_cons_self _ _) with ⟨c, request, rfl⟩ | ⟨level, format, args, rfl⟩
    · simpa [openConnections] using ih2
    · simpa [openConnections] using ih2

theorem getLast?_two_append {α : Type} (a b x : α) (t : List α) :
    (a :: b :: (t ++ [x])).getLast? = some x := by
  have h : a :: b :: (t ++ [x]) = (a :: b :: t) ++ [x] := rfl
  rw [h]
  exact List.getLast?_concat _

theorem set_length_append {α : Type} (done : List α) (x y : α) (t : List α) :
    (done ++ x :: t).set done.length y = done ++ y :: t := by
  induction done with
  | nil => rfl
  | cons d done ih => simp [List.set, ih]

/-- The loop on a batch whose first requests succeed and whose next request
returns an error. -/
theorem readLoop_abort (env : Env) (s : OPCDriver) (c : Client) (l : LoggingClient)
    (hlc : s.lc = some l) (bad : CommandRequest) (post : List CommandRequest) (e : GoError) :
    ∀ (pre : List CommandRequest) (vals : List CommandValue) (i : Nat)
      (done : List (Option CommandValue)),
      done.length = i →
      vals.length = pre.length →
      (∀ j r v, (pre.zip vals)[j]? = some (r, v) →
        (handleReadCommandRequest env c (i + j) r).outcome = Except.ok (Except.ok v)) →
      (handleReadCommandRequest env c (i + pre.length) bad).outcome
        = Except.ok (Except.error e) →
      (readLoop env s c (pre ++ bad :: post) i
          (done ++ List.replicate (pre.length + 1 + post.length) none)).outcome
        = Except.ok (some (done ++ vals.map some ++ List.replicate (1 + post.length) none),
            some e) ∧
      (readLoop env s c (pre ++ bad :: post) i
          (done ++ List.replicate (pre.length + 1 + post.length) none)).trace
        = batchTrace env c i (pre ++ [bad]) ++
          [Event.log LogLevel.Error
            "Driver.HandleReadCommands: Handle read commands failed: %v" [LogArg.err e]] := by
  intro pre
  induction pre with
  | nil =>
    intro vals i done hdone hlen hok hbad
    have hv : vals = [] := List.length_eq_zero.1 (by simpa using hlen)
    subst hv
    simp only [List.length_nil, Nat.add_zero] at hbad
    simp [readLoop, hbad, hlc, batchTrace]
  | cons r pre ih =>
    intro vals i done hdone hlen hok hbad
    cases vals with
    | nil => simp at hlen
    | cons v vals =>
      have h0 : (handleReadCommandRequest env c i r).outcome = Except.ok (Except.ok v) := by
        have := hok 0 r v (by simp)
        simpa using this
      have hset : (done ++ List.replicate (pre.length + 1 + 1 + post.length) none).set i (some v)
          = (done ++ [some v]) ++ List.replicate (pre.length + 1 + post.length) none := by
        have hr : List.replicate (pre.length + 1 + 1 + post.length) (none : Option CommandValue)
            = none :: List.replicate (pre.length + 1 + post.length) none := by
          rw [show pre.length + 1 + 1 + post.length = (pre.length + 1 + post.length) + 1 by omega]
          rfl
        rw [hr, ← hdone, set_length_append]
        simp
      have ih2 := ih vals (i + 1) (done ++ [some v]) (by simp [hdone]) (by simpa using hlen)
        (fun j r2 v2 hj => by
          have := hok (j + 1) r2 v2 (by simpa using hj)
          rw [show i + 1 + j = i + (j + 1) by omega]
          exact this)
        (by
          rw [show i + 1 + pre.length = i + (r :: pre).length by simp; omega]
          exact hbad)
      obtain ⟨iho, iht⟩ := ih2
      simp only [List.length_cons, List.cons_append, readLoop, h0, hset]
      refine ⟨iho.trans (by simp), ?_⟩
      have ht : (handleReadCommandRequest env c i r).trace ++
          (readLoop env s c (pre ++ bad :: post) (i + 1)
            (done ++ [some v] ++ List.replicate (pre.length + 1 + post.length) none)).trace
          = batchTrace env c i (r :: pre ++ [bad]) ++
            [Event.log LogLevel.Error
              "Driver.HandleReadCommands: Handle read commands failed: %v" [LogArg.err e]] := by
        rw [iht]
        simp [batchTrace]
      exact ht

theorem batchTrace_countP (env : Env) (c : Client) (reqs : List CommandRequest) :
    ∀ i, (batchTrace env c i reqs).countP Event.isRead ≤ reqs.length := by
  induction reqs with
  | nil => intro i; simp [batchTrace]
  | cons req rest ih =>
    intro i
    have h1 := (handleReadCommandRequest_trace env c i req).2
    have h2 := ih (i + 1)
    simp only [batchTrace, List.countP_append, List.length_cons]
    omega

/-- The shape of a call of `HandleReadCommands` that gets as far as the loop. -/
theorem HandleReadCommands_connected (env : Env) (s : OPCDriver) (l : LoggingClient)
    (deviceName : String) (protocols : GoMap ProtocolProperties) (endpoint : String)
    (req0 : CommandRequest) (rest : List CommandRequest)
    (hlc : s.lc = some l) (hep : FetchEndpoint protocols = (endpoint, none))
    (hconn : env.Connect { endpoint := endpoint } = none) :
    (HandleReadCommands env s deviceName protocols (req0 :: rest)).outcome
      = (readLoop env s { endpoint := endpoint } (req0 :: rest) 0
          (List.replicate (rest.length + 1) none)).outcome ∧
    (HandleReadCommands env s deviceName protocols (req0 :: rest)).trace
      = Event.log LogLevel.Debug
            "OPCDriver.HandleReadCommands: protocols: %v resource: %v attributes: %v"
            [LogArg.protocols protocols, LogArg.str req0.DeviceResourceName,
              LogArg.attributes req0.Attributes] ::
          Event.connect { endpoint := endpoint } true ::
            ((readLoop env s { endpoint := endpoint } (req0 :: rest) 0
              (List.replicate (rest.length + 1) none)).trace ++
            [Event.close { endpoint := endpoint }]) := by
  simp [HandleReadCommands, hlc, hep, hconn]

/-- No path of `HandleReadCommands` assigns to the driver. -/
theorem HandleReadCommands_state (env : Env) (s : OPCDriver) (deviceName : String)
    (protocols : GoMap ProtocolProperties) (reqs : List CommandRequest) :
    (HandleReadCommands env s deviceName protocols reqs).state = s := by
  cases reqs with
  | nil => rfl
  | cons req0 rest =>
    cases hl : s.lc with
    | none => simp [HandleReadCommands, hl]
    | some l =>
      cases hf : FetchEndpoint protocols with
      | mk endpoint err =>
        cases err with
        | some err => simp [HandleReadCommands, hl, hf]
        | none =>
          cases hc : env.Connect { endpoint := endpoint } <;>
            simp [HandleReadCommands, hl, hf, hc]

/-! ## ProcessCustomConfigChanges -/

/-- Claim C5, as stated, fails on a driver whose logging client is nil: the call
panics on its first logging call, before the assignment, so an update that
differs from the held writable section is not taken over. -/
theorem ProcessCustomConfigChanges_nil_logger_counterexample :
    (ProcessCustomConfigChanges { sampleDriver with lc := none }
        (RawConfig.opcWritable (some { Resources := "b" }))).outcome
      = Except.error (Panic.nilDereference "s.lc") ∧
    (ProcessCustomConfigChanges { sampleDriver with lc := none }
        (RawConfig.opcWritable (some { Resources := "b" }))).state.serviceConfig.map
          (fun cfg => cfg.OPCCustom.Writable)
      = some { Resources := "a" } ∧
    (ProcessCustomConfigChanges { sampleDriver with lc := none }
        (RawConfig.opcWritable (some { Resources := "b" }))).state.serviceConfig.map
          (fun cfg => cfg.OPCCustom.Writable)
      ≠ some { Resources := "b" } := by
  refine ⟨rfl, rfl, ?_⟩
  decide

/-- Claim C5, amended: on a driver whose logging client is initialized and which
holds a configuration, for every update `u` of type `OPCWritable` the call returns
and the held writable section afterwards is exactly `u`; when `u` equals the section
held before, the driver is left as it was and "No changes detected" is logged; in
both cases `DeviceName`, `Policy`, `Mode`, `CertFile` and `KeyFile` of the held
configuration and the other fields of the driver are unchanged. -/
theorem ProcessCustomConfigChanges_frame (s : OPCDriver) (l : LoggingClient)
    (cfg : ServiceConfig) (u : OPCWritable)
    (hlc : s.lc = some l) (hcfg : s.serviceConfig = some cfg) :
    (ProcessCustomConfigChanges s (RawConfig.opcWritable (some u))).outcome = Except.ok () ∧
    (ProcessCustomConfigChanges s (RawConfig.opcWritable (some u))).state
      = { lc := s.lc, asyncCh := s.asyncCh, deviceCh := s.deviceCh,
          serviceConfig := some (ServiceConfig.mk
            { DeviceName := cfg.OPCCustom.DeviceName, Policy := cfg.OPCCustom.Policy,
              Mode := cfg.OPCCustom.Mode, CertFile := cfg.OPCCustom.CertFile,
              KeyFile := cfg.OPCCustom.KeyFile, Writable := u }) } ∧
    (u = cfg.OPCCustom.Writable →
      (ProcessCustomConfigChanges s (RawConfig.opcWritable (some u))).state = s ∧
      Event.log LogLevel.Info "No changes detected" []
        ∈ (ProcessCustomConfigChanges s (RawConfig.opcWritable (some u))).trace) ∧
    (u ≠ cfg.OPCCustom.Writable →
      (ProcessCustomConfigChanges s (RawConfig.opcWritable (some u))).trace
        = [Event.log LogLevel.Info
            "Received configuration updates for 'OPCCustom.Writable' section" [],
           Event.log LogLevel.Info "Resources changed to: %s" [LogArg.str u.Resources]]) := by
  obtain ⟨lc, a, d, sc⟩ := s
  simp only at hlc hcfg
  subst hlc hcfg
  obtain ⟨⟨dn, pol, mode, cert, key, ⟨w⟩⟩⟩ := cfg
  obtain ⟨r⟩ := u
  by_cases h : w = r
  · subst h
    simp [ProcessCustomConfigChanges]
  · have h2 : (⟨w⟩ : OPCWritable) ≠ ⟨r⟩ := fun e => h (OPCWritable.mk.inj e)
    have h3 : r ≠ w := fun e => h e.symm
    simp [ProcessCustomConfigChanges, h, h2, h3]

/-- The amended claim C5 at a concrete driver, which holds the writable section
"a", and the update "b". -/
theorem ProcessCustomConfigChanges_frame_witness :
    sampleDriver.lc = some { id := 1 } ∧
    sampleDriver.serviceConfig.map (fun cfg => cfg.OPCCustom.Writable)
      = some { Resources := "a" } ∧
    (ProcessCustomConfigChanges sampleDriver
        (RawConfig.opcWritable (some { Resources := "b" }))).outcome = Except.ok () ∧
    (ProcessCustomConfigChanges sampleDriver
        (RawConfig.opcWritable (some { Resources := "b" }))).state
      = { lc := some { id := 1 }, asyncCh := some 1, deviceCh := some 2,
          serviceConfig := some (ServiceConfig.mk
            { DeviceName := "plc", Policy := "None", Mode := "None", CertFile := "",
              KeyFile := "", Writable := { Resources := "b" } }) } := by
  have h := ProcessCustomConfigChanges_frame sampleDriver { id := 1 }
    { OPCCustom :=
      { DeviceName := "plc", Policy := "None", Mode := "None", CertFile := "", KeyFile := "",
        Writable := { Resources := "a" } } }
    { Resources := "b" } rfl rfl
  exact ⟨rfl, rfl, h.1, h.2.1⟩

/-! ## handleReadCommandRequest -/

/-- Claim C6 at the request whose "nodeId" attribute is the number 42: the call
issues no read, but it does not return an error: the type assertion
`nodeID.(string)` panics. (For a request without a "nodeId" attribute the call does
return an error without issuing a read.) -/
theorem handleReadCommandRequest_numeric_nodeId (env : Env) (deviceClient : Client) (i : Nat) :
    lookupKey numericNodeIdRequest.Attributes "nodeId" = some (GoValue.int32 42) ∧
    (handleReadCommandRequest env deviceClient i numericNodeIdRequest).outcome
      = Except.error (Panic.interfaceConversion "nodeID.(string)") ∧
    (handleReadCommandRequest env deviceClient i numericNodeIdRequest).trace = [] ∧
    (∀ err : GoError,
      (handleReadCommandRequest env deviceClient i numericNodeIdRequest).outcome
        ≠ Except.ok (Except.error err)) ∧
    (∀ req : CommandRequest, lookupKey req.Attributes "nodeId" = none →
      (handleReadCommandRequest env deviceClient i req).outcome
        = Except.ok (Except.error (GoError.errorf "attribute nodeID does not exist")) ∧
      (handleReadCommandRequest env deviceClient i req).trace = []) := by
  refine ⟨rfl, rfl, rfl, ?_, ?_⟩
  · intro err h
    have h2 : (handleReadCommandRequest env deviceClient i numericNodeIdRequest).outcome
        = Except.error (Panic.interfaceConversion "nodeID.(string)") := rfl
    rw [h2] at h
    cases h
  · intro req h
    simp [handleReadCommandRequest, h]

/-! ## Stop, AddDevice, UpdateDevice, RemoveDevice -/

/-- Claim C7, as stated, fails for `AddDevice`, `UpdateDevice` and `RemoveDevice`:
on the driver before `Initialize` has run, whose logging client is nil, each of them
panics on its logging call and returns nothing. -/
theorem device_callbacks_nil_logger_counterexample :
    (AddDevice zeroDriver "plc" sampleProtocols "UNLOCKED").outcome
      = Except.error (Panic.nilDereference "s.lc") ∧
    (UpdateDevice zeroDriver "plc" sampleProtocols "UNLOCKED").outcome
      = Except.error (Panic.nilDereference "s.lc") ∧
    (RemoveDevice zeroDriver "plc" sampleProtocols).outcome
      = Except.error (Panic.nilDereference "s.lc") ∧
    (AddDevice zeroDriver "plc" sampleProtocols "UNLOCKED").outcome ≠ Except.ok none := by
  refine ⟨rfl, rfl, rfl, ?_⟩
  intro h
  have h2 : (AddDevice zeroDriver "plc" sampleProtocols "UNLOCKED").outcome
      = Except.error (Panic.nilDereference "s.lc") := rfl
  rw [h2] at h
  cases h

/-- Claim C7, amended: `Stop` tolerates a nil logging client: on every driver whose
logging client is nil, in particular before `Initialize` has run, and for both
values of `force`, it returns nil, logs nothing and leaves the driver unchanged.
`AddDevice`, `UpdateDevice` and `RemoveDevice` return nil and leave the driver
unchanged, with one debug line logged, on every driver whose logging client is
initialized. -/
theorem lifecycle_callbacks (s : OPCDriver) (l : LoggingClient) (force : Bool)
    (deviceName : String) (protocols : GoMap ProtocolProperties) (adminState : AdminState) :
    ((Stop { s with lc := none } force).outcome = Except.ok none ∧
      (Stop { s with lc := none } force).state = { s with lc := none } ∧
      (Stop { s with lc := none } force).trace = []) ∧
    ((Stop zeroDriver true).outcome = Except.ok none ∧
      (Stop zeroDriver false).outcome = Except.ok none) ∧
    ((AddDevice { s with lc := some l } deviceName protocols adminState).outcome = Except.ok none ∧
      (AddDevice { s with lc := some l } deviceName protocols adminState).state
        = { s with lc := some l } ∧
      (AddDevice { s with lc := some l } deviceName protocols adminState).trace
        = [Event.log LogLevel.Debug "a new Device is added: %s" [LogArg.str deviceName]]) ∧
    ((UpdateDevice { s with lc := some l } deviceName protocols adminState).outcome
        = Except.ok none ∧
      (UpdateDevice { s with lc := some l } deviceName protocols adminState).state
        = { s with lc := some l } ∧
      (UpdateDevice { s with lc := some l } deviceName protocols adminState).trace
        = [Event.log LogLevel.Debug "Device %s is updated" [LogArg.str deviceName]]) ∧
    ((RemoveDevice { s with lc := some l } deviceName protocols).outcome = Except.ok none ∧
      (RemoveDevice { s with lc := some l } deviceName protocols).state
        = { s with lc := some l } ∧
      (RemoveDevice { s with lc := some l } deviceName protocols).trace
        = [Event.log LogLevel.Debug "Device %s is removed" [LogArg.str deviceName]]) := by
  refine ⟨⟨rfl, rfl, rfl⟩, ⟨rfl, rfl⟩, ⟨rfl, rfl, rfl⟩, ⟨rfl, rfl, rfl⟩, ⟨rfl, rfl, rfl⟩⟩

/-! ## HandleReadCommands -/

/-- Claim C10: `reqs[0]` is in bounds exactly when the request list is not empty.
For a non-empty list the call never ends in the index panic of `reqs[0]`; for the
empty list it ends in that panic with no event at all (no log line, no endpoint
lookup, no connection attempt), the driver unchanged, and it does not return the
empty result list. -/
theorem HandleReadCommands_first_request_index (env : Env) (s : OPCDriver) (deviceName : String)
    (protocols : GoMap ProtocolProperties) (reqs : List CommandRequest) :
    ((HandleReadCommands env s deviceName protocols reqs).outcome
        = Except.error (Panic.indexOutOfRange "reqs[0]" 0 0) ↔ reqs = []) ∧
    (reqs ≠ [] → ∀ index length,
      (HandleReadCommands env s deviceName protocols reqs).outcome
        ≠ Except.error (Panic.indexOutOfRange "reqs[0]" index length)) ∧
    (HandleReadCommands env s deviceName protocols []).trace = [] ∧
    (HandleReadCommands env s deviceName protocols []).state = s ∧
    (HandleReadCommands env s deviceName protocols []).outcome ≠ Except.ok (some [], none) := by
  have hne : ∀ (req0 : CommandRequest) (rest : List CommandRequest) (index length : Nat),
      (HandleReadCommands env s deviceName protocols (req0 :: rest)).outcome
        ≠ Except.error (Panic.indexOutOfRange "reqs[0]" index length) := by
    intro req0 rest index length h
    cases hl : s.lc with
    | none => simp [HandleReadCommands, hl] at h
    | some l =>
      cases hf : FetchEndpoint protocols with
      | mk endpoint err =>
        cases err with
        | some err => simp [HandleReadCommands, hl, hf] at h
        | none =>
          cases hc : env.Connect { endpoint := endpoint } with
          | some err => simp [HandleReadCommands, hl, hf, hc] at h
          | none =>
            rw [(HandleReadCommands_connected env s l deviceName protocols endpoint req0 rest
              hl hf hc).1] at h
            exact readLoop_panic env s _ _ _ _ _ h index length rfl
  refine ⟨?_, ?_, rfl, rfl, ?_⟩
  · cases reqs with
    | nil => simp [HandleReadCommands]
    | cons req0 rest => simpa using hne req0 rest 0 0
  · intro h index length
    cases reqs with
    | nil => exact absurd rfl h
    | cons req0 rest => exact hne req0 rest index length
  · simp [HandleReadCommands]

/-- Claim C9: every call of `HandleReadCommands`, however it ends (the index panic,
a nil logging client, a failed endpoint lookup, a failed connection, a request that
returns an error or panics, or all requests succeeding), leaves no connection open:
replaying its trace from the state without open connection ends in that state, and
when the call established a connection the last event of the trace is the close of
that connection. -/
theorem HandleReadCommands_closes_connection (env : Env) (s : OPCDriver) (deviceName : String)
    (protocols : GoMap ProtocolProperties) (reqs : List CommandRequest) :
    openConnections (HandleReadCommands env s deviceName protocols reqs).trace [] = [] ∧
    (∀ c, Event.connect c true ∈ (HandleReadCommands env s deviceName protocols reqs).trace →
      (HandleReadCommands env s deviceName protocols reqs).trace.getLast?
        = some (Event.close c)) := by
  cases reqs with
  | nil => simp [HandleReadCommands, openConnections]
  | cons req0 rest =>
    cases hl : s.lc with
    | none => simp [HandleReadCommands, hl, openConnections]
    | some l =>
      cases hf : FetchEndpoint protocols with
      | mk endpoint err =>
        cases err with
        | some err => simp [HandleReadCommands, hl, hf, openConnections]
        | none =>
          cases hc : env.Connect { endpoint := endpoint } with
          | some err => simp [HandleReadCommands, hl, hf, hc, openConnections]
          | none =>
            have hin := readLoop_trace env s { endpoint := endpoint } (req0 :: rest) 0
              (List.replicate (rest.length + 1) none)
            rw [(HandleReadCommands_connected env s l deviceName protocols endpoint req0 rest
              hl hf hc).2]
            refine ⟨?_, ?_⟩
            · simp only [openConnections]
              rw [openConnections_append_inert _ _ _ (fun ev hev => by
                rcases hin ev hev with ⟨request, h⟩ | h
                · exact Or.inl ⟨_, request, h⟩
                · exact Or.inr h)]
              simp [openConnections]
            · intro c hmem
              simp only [List.mem_cons, List.mem_append, List.mem_singleton] at hmem
              have hceq : c = { endpoint := endpoint } := by
                rcases hmem with h | h | h | h
                · cases h
                · cases h; rfl
                · rcases hin _ h with ⟨request, h2⟩ | ⟨level, format, args, h2⟩ <;> cases h2
                · simp at h
              rw [hceq]
              exact getLast?_two_append _ _ _ _

/-- Claim C3, as stated, fails: with two requests of which the first converts to
`goodValue` and the second returns an error, the call does not return the one-entry
list of the first result; it returns a list of two entries, the second of them nil. -/
theorem HandleReadCommands_partial_results_counterexample :
    FetchEndpoint sampleProtocols = ("opc.tcp://host:4840", none) ∧
    sampleEnv.Connect { endpoint := "opc.tcp://host:4840" } = none ∧
    (handleReadCommandRequest sampleEnv { endpoint := "opc.tcp://host:4840" } 0
        goodRequest).outcome = Except.ok (Except.ok goodValue) ∧
    (handleReadCommandRequest sampleEnv { endpoint := "opc.tcp://host:4840" } 1
        noNodeIdRequest).outcome
      = Except.ok (Except.error (GoError.errorf "attribute nodeID does not exist")) ∧
    (HandleReadCommands sampleEnv sampleDriver "plc" sampleProtocols
        [goodRequest, noNodeIdRequest]).outcome
      = Except.ok (some [some goodValue, none],
          some (GoError.errorf "attribute nodeID does not exist")) ∧
    (HandleReadCommands sampleEnv sampleDriver "plc" sampleProtocols
        [goodRequest, noNodeIdRequest]).outcome
      ≠ Except.ok (some [some goodValue],
          some (GoError.errorf "attribute nodeID does not exist")) := by
  have h : (HandleReadCommands sampleEnv sampleDriver "plc" sampleProtocols
        [goodRequest, noNodeIdRequest]).outcome
      = Except.ok (some [some goodValue, none],
          some (GoError.errorf "attribute nodeID does not exist")) := rfl
  refine ⟨rfl, rfl, rfl, rfl, h, ?_⟩
  rw [h]
  intro h2
  have h3 := congrArg (fun (r : ReadResult) => r.1.map List.length)
    (Except.ok.inj h2)
  simp at h3

/-- Claim C3, amended: on a driver with a logging client, when the endpoint
resolves, the connection succeeds, the requests `pre` read and convert to `vals`
and the next request `bad` returns the error `e`, the call returns that error and
a list with one entry per request of the whole batch: the converted results of
`pre` in request order, then nil for `bad` and for each request after it. The
events of the call are those of `pre` and `bad` only (at most one read each): no
request after `bad` is issued; the connection is closed and the driver unchanged. -/
theorem HandleReadCommands_first_failure (env : Env) (s : OPCDriver) (l : LoggingClient)
    (deviceName : String) (protocols : GoMap ProtocolProperties) (endpoint : String)
    (pre : List CommandRequest) (bad : CommandRequest) (post : List CommandRequest)
    (vals : List CommandValue) (e : GoError)
    (hlc : s.lc = some l)
    (hep : FetchEndpoint protocols = (endpoint, none))
    (hconn : env.Connect { endpoint := endpoint } = none)
    (hlen : vals.length = pre.length)
    (hok : ∀ j r v, (pre.zip vals)[j]? = some (r, v) →
      (handleReadCommandRequest env { endpoint := endpoint } j r).outcome
        = Except.ok (Except.ok v))
    (hbad : (handleReadCommandRequest env { endpoint := endpoint } pre.length bad).outcome
      = Except.ok (Except.error e)) :
    (HandleReadCommands env s deviceName protocols (pre ++ bad :: post)).outcome
      = Except.ok (some (vals.map some ++ List.replicate (1 + post.length) none), some e) ∧
    (HandleReadCommands env s deviceName protocols (pre ++ bad :: post)).trace
      = Event.log LogLevel.Debug
            "OPCDriver.HandleReadCommands: protocols: %v resource: %v attributes: %v"
            [LogArg.protocols protocols,
              LogArg.str ((pre ++ [bad]).headD bad).DeviceResourceName,
              LogArg.attributes ((pre ++ [bad]).headD bad).Attributes] ::
          Event.connect { endpoint := endpoint } true ::
            (batchTrace env { endpoint := endpoint } 0 (pre ++ [bad]) ++
              [Event.log LogLevel.Error
                  "Driver.HandleReadCommands: Handle read commands failed: %v" [LogArg.err e],
                Event.close { endpoint := endpoint }]) ∧
    (HandleReadCommands env s deviceName protocols (pre ++ bad :: post)).trace.countP
        Event.isRead ≤ pre.length + 1 ∧
    (HandleReadCommands env s deviceName protocols (pre ++ bad :: post)).state = s := by
  obtain ⟨req0, rest, hreqs, hhead⟩ : ∃ req0 rest,
      pre ++ bad :: post = req0 :: rest ∧ (pre ++ [bad]).headD bad = req0 := by
    cases pre with
    | nil => exact ⟨bad, post, rfl, rfl⟩
    | cons r pre => exact ⟨r, pre ++ bad :: post, rfl, rfl⟩
  have hloop := readLoop_abort env s { endpoint := endpoint } l hlc bad post e pre vals 0 []
    rfl hlen (fun j r v h => by simpa using hok j r v h) (by simpa using hbad)
  have hrep : List.replicate (rest.length + 1) (none : Option CommandValue)
      = [] ++ List.replicate (pre.length + 1 + post.length) none := by
    have hl2 : rest.length + 1 = pre.length + 1 + post.length := by
      have := congrArg List.length hreqs
      simp only [List.length_append, List.length_cons] at this
      omega
    rw [hl2]
    rfl
  obtain ⟨hco, hct⟩ := HandleReadCommands_connected env s l deviceName protocols endpoint req0
    rest hlc hep hconn
  rw [← hreqs, hrep] at hco hct
  have htrace : (HandleReadCommands env s deviceName protocols (pre ++ bad :: post)).trace
      = Event.log LogLevel.Debug
            "OPCDriver.HandleReadCommands: protocols: %v resource: %v attributes: %v"
            [LogArg.protocols protocols,
              LogArg.str ((pre ++ [bad]).headD bad).DeviceResourceName,
              LogArg.attributes ((pre ++ [bad]).headD bad).Attributes] ::
          Event.connect { endpoint := endpoint } true ::
            (batchTrace env { endpoint := endpoint } 0 (pre ++ [bad]) ++
              [Event.log LogLevel.Error
                  "Driver.HandleReadCommands: Handle read commands failed: %v" [LogArg.err e],
                Event.close { endpoint := endpoint }]) := by
    rw [hct, hloop.2, hhead]
    simp
  refine ⟨?_, htrace, ?_, HandleReadCommands_state _ _ _ _ _⟩
  · rw [hco, hloop.1]
    simp
  · rw [htrace]
    have hb := batchTrace_countP env { endpoint := endpoint } (pre ++ [bad]) 0
    simp only [List.length_append, List.length_singleton] at hb
    simp only [List.countP_cons, List.countP_append, List.countP_nil, Event.isRead]
    simpa using hb

/-- The amended claim C3 at a batch of three requests of which the second has no
"nodeId": the result has three entries, the last two nil, and one read is issued. -/
theorem HandleReadCommands_first_failure_witness :
    (HandleReadCommands sampleEnv sampleDriver "plc" sampleProtocols
        ([goodRequest] ++ noNodeIdRequest :: [goodRequest])).outcome
      = Except.ok (some ([goodValue].map some ++ List.replicate (1 + [goodRequest].length) none),
          some (GoError.errorf "attribute nodeID does not exist")) ∧
    (HandleReadCommands sampleEnv sampleDriver "plc" sampleProtocols
        ([goodRequest] ++ noNodeIdRequest :: [goodRequest])).trace.countP Event.isRead
      ≤ [goodRequest].length + 1 := by
  have h := HandleReadCommands_first_failure sampleEnv sampleDriver { id := 1 } "plc"
    sampleProtocols "opc.tcp://host:4840" [goodRequest] noNodeIdRequest [goodRequest]
    [goodValue] (GoError.errorf "attribute nodeID does not exist") rfl rfl rfl rfl
    (fun j r v hj => by
      cases j with
      | zero =>
        simp at hj
        obtain ⟨h1, h2⟩ := hj
        subst h1 h2
        rfl
      | succ j => simp at hj)
    rfl
  exact ⟨h.1, h.2.2.1⟩

end DeviceOpcua
